import Mathlib

/-!
# Vector-addition benchmark harness (`src/main.cpp`)

A shallow embedding of `src/main.cpp`: the error-reporting helper, the device
enumeration and selection functions, context creation, and the body of `main`
(resource acquisition, kernel build, the timed dispatch and read-back loops, the
validation loop and the release calls).

Conventions of the embedding.

* `unsigned int` is `Nat` reduced modulo `2^32`, `size_t` and `uint64_t` are `Nat`
  reduced modulo `2^64` (an LP64 target), `cl_int` and `int` are `Int`.
* `std::string` is a list of characters.
* A pointer-like driver handle (`cl_device_id`, `cl_context`, ...) is `Option Nat`,
  `none` being `nullptr`.
* A `std::vector<float>` of size `n` is its element function on the indices below `n`;
  the `float` type, its `+` and its `!=` are parameters of the model.
* The OpenCL driver, the kernel source file, the random generator and the value of
  `__FILE__` are external to `main.cpp`; they are gathered in the structure `Env`.
  The status reported by a device-API call is `Env.code k`, where `k` counts the
  calls of the run from zero, so that every sequence of driver return codes is
  covered.
* A computation is a function from the list of device-API calls made so far to its
  outcome (a value, or the `std::runtime_error` thrown) and the extended list.
* Console output and the lap timer have no influence on control flow and are left out.
-/

namespace GPGPU

/-! ## Machine arithmetic -/

/-- Number of values of `unsigned int`. -/
def UINT_MOD : Nat := 2 ^ 32

/-- Number of values of `size_t` (and of `uint64_t`). -/
def SIZE_MOD : Nat := 2 ^ 64

/-- Addition of two `size_t` values. -/
def size_t_add (a b : Nat) : Nat := (a + b) % SIZE_MOD

/-- Subtraction of two `size_t` values (wraps around below zero). -/
def size_t_sub (a b : Nat) : Nat := (a + (SIZE_MOD - b % SIZE_MOD)) % SIZE_MOD

/-- Multiplication of two `size_t` values. -/
def size_t_mul (a b : Nat) : Nat := (a * b) % SIZE_MOD

/-- Division of two `size_t` values. -/
def size_t_div (a b : Nat) : Nat := a / b

/-- The value of `sizeof(float)`. -/
def sizeof_float : Nat := 4

/-- The value of `sizeof(cl_mem)` (a pointer). -/
def sizeof_cl_mem : Nat := 8

/-- The value of `sizeof(unsigned int)`. -/
def sizeof_unsigned_int : Nat := 4

/-- Line 234: `(n + workGroupSize - 1) / workGroupSize * workGroupSize`, where `n` is an
`unsigned int` converted to `size_t` and `workGroupSize` is a `size_t`. -/
def global_work_size (n workGroupSize : Nat) : Nat :=
  size_t_mul (size_t_div (size_t_sub (size_t_add n workGroupSize) 1) workGroupSize) workGroupSize

/-- Line 278: `uint64_t b = n * sizeof(float)`. -/
def transfer_bytes (n : Nat) : Nat := size_t_mul n sizeof_float

/-! ## Error reporting -/

abbrev cl_int := Int

/-- The success status of the device API. -/
def CL_SUCCESS : cl_int := 0

/-- A thrown `std::runtime_error`, identified by its message. -/
structure runtime_error where
  what : String
  deriving DecidableEq, Repr

/-- Lines 16-25: returns on `CL_SUCCESS`, otherwise throws with the code and the call site. -/
def reportError (err : cl_int) (filename : String) (line : Int) : Except runtime_error Unit :=
  if CL_SUCCESS = err then
    .ok ()
  else
    let message := "OpenCL error code " ++ toString err ++ " encountered at " ++ filename
      ++ ":" ++ toString line
    .error ⟨message⟩

/-! ## Strings -/

abbrev std_string := List Char

/-- Modelled from the spec: `utils::tolower` of `libutils/string_utils.h` is not part of
the sources at hand; it lower-cases every character of the string (ASCII letters
`A`-`Z` become `a`-`z`, every other character is kept). -/
def tolower (str : std_string) : std_string := str.map Char.toLower

/-- The value `std::string::npos`. -/
def npos : Option Nat := none

/-- The result of `s.find(pat)`: the position of the first occurrence of `pat` in `s`,
or `npos`. -/
def find : std_string → std_string → Option Nat
  | [], pat => if pat.isEmpty then some 0 else npos
  | c :: cs, pat =>
    if pat.isPrefixOf (c :: cs) then some 0 else (find cs pat).map (· + 1)

/-- Lines 78-80: the name test of `select_gpu`, on the device name returned by
`get_device_name` and the second argument of `select_gpu`:
`name = utils::tolower(name); name.find(platform_name) != std::string::npos`. -/
def name_matches (name platform_name : std_string) : Bool :=
  let name := tolower name
  find name platform_name != npos

/-! ## Validation loop -/

section Validation

variable {float : Type}

/-- Lines 284-288, started at index `i` with `remaining = n - i` iterations to go. The
first component lists the indices whose elements were compared. -/
def validate_from (add : float → float → float) (ne : float → float → Bool)
    (as bs cs : Nat → float) : Nat → Nat → List Nat × Except runtime_error Unit
  | _, 0 => ([], .ok ())
  | i, remaining + 1 =>
    if ne (cs i) (add (as i) (bs i)) then
      ([i], .error ⟨"CPU and GPU results differ!"⟩)
    else
      let rest := validate_from add ne as bs cs (i + 1) remaining
      (i :: rest.1, rest.2)

/-- Lines 284-288: `for (unsigned int i = 0; i < n; ++i) if (cs[i] != as[i] + bs[i]) throw`. -/
def validate (add : float → float → float) (ne : float → float → Bool)
    (as bs cs : Nat → float) (n : Nat) : List Nat × Except runtime_error Unit :=
  validate_from add ne as bs cs 0 n

end Validation

/-! ## The device API as seen from `main.cpp` -/

/-- The device classes of `cl_device_type` used here. -/
inductive cl_device_type where
  | CL_DEVICE_TYPE_CPU
  | CL_DEVICE_TYPE_GPU
  | CL_DEVICE_TYPE_ACCELERATOR
  deriving DecidableEq, Repr

/-- A `cl_platform_id` handed out by the driver. -/
abbrev cl_platform_id := Nat

/-- A `cl_device_id`: `nullptr` or a handle handed out by the driver. -/
abbrev cl_device_id := Option Nat

/-- A `cl_context`, `cl_command_queue`, `cl_mem`, `cl_program` or `cl_kernel`:
`nullptr` or a handle. -/
abbrev cl_handle := Option Nat

/-- The device-API entry points called in `main.cpp`, with the arguments that the
model keeps track of. -/
inductive ApiCall where
  | clGetPlatformIDs
  | clGetPlatformInfo (platform : cl_platform_id)
  | clGetDeviceIDs (platform : cl_platform_id) (device_type : cl_device_type)
  | clGetDeviceInfo (device : Nat)
  | clCreateContext (device : cl_device_id)
  | clCreateCommandQueue (context : cl_handle) (device : cl_device_id)
  | clCreateBuffer (size : Nat)
  | clCreateProgramWithSource
  | clBuildProgram
  | clGetProgramBuildInfo (device : cl_device_id)
  | clCreateKernel
  | clSetKernelArg (arg_index arg_size : Nat)
  | clEnqueueNDRangeKernel (global_work_size local_work_size : Nat)
  | clWaitForEvents
  | clEnqueueReadBuffer (size : Nat)
  | clReleaseKernel
  | clReleaseMemObject
  | clReleaseCommandQueue
  | clReleaseContext
  deriving DecidableEq, Repr

/-- Everything `main.cpp` takes from outside: the driver, the working directory, the
random generator, the floating-point operations and the expansion of `__FILE__`. -/
structure Env (float : Type) where
  /-- The expansion of `__FILE__` in `main.cpp`. -/
  FILE : String
  /-- The result of `ocl_init()`. -/
  ocl_init : Bool
  /-- The status reported by the `k`-th device-API call of the run. -/
  code : Nat → cl_int
  /-- The platforms of the driver, in enumeration order. -/
  platforms : List cl_platform_id
  /-- The name of a platform. -/
  platform_name : cl_platform_id → std_string
  /-- The devices of a platform that belong to a class, in enumeration order. -/
  devices : cl_platform_id → cl_device_type → List Nat
  /-- The name of a device. -/
  device_name : Nat → std_string
  /-- The build log of the program. -/
  build_log : List Char
  /-- The contents of `src/cl/aplusb.cl` (empty when the file cannot be read). -/
  kernel_sources : std_string
  /-- The `k`-th value returned by `FastRandom::nextf`. -/
  nextf : Nat → float
  /-- The contents of the device buffer `cs_buffer` when it is read back. -/
  device_cs : Nat → float
  /-- The `float` value `0`. -/
  zero : float
  /-- The `float` addition. -/
  add : float → float → float
  /-- The `float` comparison `!=`. -/
  ne : float → float → Bool

/-- A computation of `main.cpp`: from the device-API calls made so far to the outcome
(a value or the exception thrown) and the calls made until then. -/
def Run (α : Type) : Type := List ApiCall → Except runtime_error α × List ApiCall

/-- Return a value. -/
def Run.pure {α : Type} (a : α) : Run α := fun tr => (.ok a, tr)

/-- Sequencing: an exception of the first part ends the computation. -/
def Run.bind {α β : Type} (m : Run α) (f : α → Run β) : Run β := fun tr =>
  match m tr with
  | (.ok a, tr1) => f a tr1
  | (.error e, tr1) => (.error e, tr1)

instance : Monad Run where
  pure := Run.pure
  bind := Run.bind

/-- The statement `throw e`. -/
def raise {α : Type} (e : runtime_error) : Run α := fun tr => (.error e, tr)

/-- Run a computation that makes no device-API call. -/
def liftExcept {α : Type} (r : Except runtime_error α) : Run α := fun tr => (r, tr)

section Program

variable {float : Type}

/-- A device-API call that reports a status: the call is recorded and the driver's
status for it is returned. -/
def api (env : Env float) (c : ApiCall) : Run cl_int := fun tr =>
  (.ok (env.code tr.length), tr ++ [c])

/-- A device-API call that creates an object and reports its status through
`errcode_ret`: on success the object is a fresh handle (the number of the call),
otherwise it is `nullptr`. -/
def api_create (env : Env float) (c : ApiCall) : Run (cl_handle × cl_int) := fun tr =>
  let err_code := env.code tr.length
  (.ok (if err_code = CL_SUCCESS then some tr.length else none, err_code), tr ++ [c])

/-- Line 27: `#define OCL_SAFE_CALL(expr) reportError(expr, __FILE__, __LINE__)`. -/
def OCL_SAFE_CALL (env : Env float) (line : Int) (expr : Run cl_int) : Run Unit := do
  let err ← expr
  liftExcept (reportError err env.FILE line)

/-- Lines 29-37. -/
def get_platforms (env : Env float) : Run (List cl_platform_id) := do
  OCL_SAFE_CALL env 31 (api env .clGetPlatformIDs)
  let platforms := env.platforms
  OCL_SAFE_CALL env 34 (api env .clGetPlatformIDs)
  return platforms

/-- Lines 39-48. -/
def get_devices (env : Env float) (platform : cl_platform_id) (type : cl_device_type) :
    Run (List Nat) := do
  OCL_SAFE_CALL env 41 (api env (.clGetDeviceIDs platform type))
  let num_devices := (env.devices platform type).length
  let devices := env.devices platform type
  if num_devices ≠ 0 then
    OCL_SAFE_CALL env 45 (api env (.clGetDeviceIDs platform type))
  return devices

/-- Lines 50-58. -/
def get_platform_name (env : Env float) (platform : cl_platform_id) : Run std_string := do
  OCL_SAFE_CALL env 52 (api env (.clGetPlatformInfo platform))
  OCL_SAFE_CALL env 55 (api env (.clGetPlatformInfo platform))
  return env.platform_name platform

/-- Lines 60-68. -/
def get_device_name (env : Env float) (device : Nat) : Run std_string := do
  OCL_SAFE_CALL env 62 (api env (.clGetDeviceInfo device))
  OCL_SAFE_CALL env 65 (api env (.clGetDeviceInfo device))
  return env.device_name device

/-- Lines 76-83: the loop over the devices of one platform; `some device` stands for
`return device`, `none` for the loop running to its end. The name test of lines 78-80
is `name_matches`. -/
def select_gpu_devices (env : Env float) (platform_name : std_string) :
    List Nat → Run cl_device_id
  | [] => pure none
  | device :: devices => do
    let name ← get_device_name env device
    if name_matches name platform_name then
      return some device
    else
      select_gpu_devices env platform_name devices

/-- Lines 70-88. -/
def select_gpu (env : Env float) : List cl_platform_id → std_string → Run cl_device_id
  | [], _ => pure none
  | platform :: platforms, platform_name => do
    let devices ← get_devices env platform .CL_DEVICE_TYPE_GPU
    if devices.isEmpty then
      select_gpu env platforms platform_name
    else
      match ← select_gpu_devices env platform_name devices with
      | some device => return some device
      | none => select_gpu env platforms platform_name

/-- Lines 90-98. -/
def get_program_build_log (env : Env float) (device : cl_device_id) : Run (List Char) := do
  OCL_SAFE_CALL env 93 (api env (.clGetProgramBuildInfo device))
  OCL_SAFE_CALL env 96 (api env (.clGetProgramBuildInfo device))
  return env.build_log

/-- Lines 107-111: the status written to `err_code` is not looked at. -/
def create_context (env : Env float) (device : cl_device_id) : Run cl_handle := do
  let (context, _) ← api_create env (.clCreateContext device)
  return context

/-- Lines 236-244: the timed launches, `trials` iterations to go. -/
def dispatch_loop (env : Env float) (global_work_size workGroupSize : Nat) : Nat → Run Unit
  | 0 => pure ()
  | trials + 1 => do
    OCL_SAFE_CALL env 238
      (api env (.clEnqueueNDRangeKernel global_work_size workGroupSize))
    OCL_SAFE_CALL env 240 (api env .clWaitForEvents)
    dispatch_loop env global_work_size workGroupSize trials

/-- Lines 273-277: the timed blocking reads of `cs_buffer` into `cs`, `trials`
iterations to go. The status of the read is not looked at; a successful read leaves
the device data in `cs`, an unsuccessful one leaves `cs` as it was. -/
def read_loop (env : Env float) (n : Nat) : Nat → (Nat → float) → Run (Nat → float)
  | 0, cs => pure cs
  | trials + 1, cs => do
    let err ← api env (.clEnqueueReadBuffer (size_t_mul n sizeof_float))
    let cs := if err = CL_SUCCESS then env.device_cs else cs
    read_loop env n trials cs

/-- Lines 113-298, for the element count `n` (line 139 fixes it to `n_main`). -/
def main (env : Env float) (n : Nat) : Run Int := do
  if !env.ocl_init then
    raise ⟨"Can't init OpenCL driver!"⟩
  let platforms ← get_platforms env
  let device ← select_gpu env platforms "nvidia".toList
  let context ← create_context env device
  let (_, err_code) ← api_create env (.clCreateCommandQueue context device)
  OCL_SAFE_CALL env 137 (pure err_code)
  let as : Nat → float := fun i => env.nextf (2 * i)
  let bs : Nat → float := fun i => env.nextf (2 * i + 1)
  let cs : Nat → float := fun _ => env.zero
  let (_, err_code) ← api_create env (.clCreateBuffer (size_t_mul n sizeof_float))
  OCL_SAFE_CALL env 160 (pure err_code)
  let (_, err_code) ← api_create env (.clCreateBuffer (size_t_mul n sizeof_float))
  OCL_SAFE_CALL env 164 (pure err_code)
  let (_, err_code) ← api_create env (.clCreateBuffer (size_t_mul n sizeof_float))
  OCL_SAFE_CALL env 168 (pure err_code)
  let kernel_sources := env.kernel_sources
  if kernel_sources.length = 0 then
    raise ⟨"Empty source file! May be you forgot to configure working directory properly?"⟩
  let (_, err_code) ← api_create env .clCreateProgramWithSource
  OCL_SAFE_CALL env 191 (pure err_code)
  let _ ← api env .clBuildProgram
  let _ ← get_program_build_log env device
  let (_, err_code) ← api_create env .clCreateKernel
  OCL_SAFE_CALL env 211 (pure err_code)
  OCL_SAFE_CALL env 216 (api env (.clSetKernelArg 0 sizeof_cl_mem))
  OCL_SAFE_CALL env 217 (api env (.clSetKernelArg 1 sizeof_cl_mem))
  OCL_SAFE_CALL env 218 (api env (.clSetKernelArg 2 sizeof_cl_mem))
  OCL_SAFE_CALL env 219 (api env (.clSetKernelArg 3 sizeof_unsigned_int))
  let workGroupSize := 128
  dispatch_loop env (global_work_size n workGroupSize) workGroupSize 20
  let cs ← read_loop env n 20 cs
  liftExcept (validate env.add env.ne as bs cs n).2
  OCL_SAFE_CALL env 290 (api env .clReleaseKernel)
  OCL_SAFE_CALL env 291 (api env .clReleaseMemObject)
  OCL_SAFE_CALL env 292 (api env .clReleaseMemObject)
  OCL_SAFE_CALL env 293 (api env .clReleaseMemObject)
  OCL_SAFE_CALL env 294 (api env .clReleaseCommandQueue)
  OCL_SAFE_CALL env 295 (api env .clReleaseContext)
  return 0

end Program

/-! ## Specification-side definitions -/

/-- Specification of the name test: a case-insensitive substring match, the letter
case being ignored in the device name and in the preference string alike. -/
def case_insensitive_match (device_name preference : std_string) : Prop :=
  tolower preference <:+: tolower device_name

/-- Specification side of device selection: the GPU-class devices of the given
platforms, platforms in the given order and devices in the driver's order. -/
def gpu_devices {float : Type} (env : Env float) (platforms : List cl_platform_id) : List Nat :=
  platforms.flatMap (fun platform => env.devices platform .CL_DEVICE_TYPE_GPU)

/-- The device-API calls of the acquisition phase: platform and device enumeration,
context, queue and buffer creation. -/
def ApiCall.is_acquisition : ApiCall → Bool
  | .clGetPlatformIDs => true
  | .clGetDeviceIDs _ _ => true
  | .clGetDeviceInfo _ => true
  | .clCreateContext _ => true
  | .clCreateCommandQueue _ _ => true
  | .clCreateBuffer _ => true
  | _ => false

/-- The computation keeps the calls made before it and every call it adds satisfies `P`. -/
def Emits {α : Type} (P : ApiCall → Prop) (m : Run α) : Prop :=
  ∀ tr, ∃ new, (m tr).2 = tr ++ new ∧ ∀ c ∈ new, P c

/-- The computation ends with an exception, whatever was called before. -/
def Fails {α : Type} (m : Run α) : Prop :=
  ∀ tr, ∃ e, (m tr).1 = .error e

/-! ## Sample machines -/

/-- A sample machine: platform 1 offers one CPU-class device (5), platform 2 offers two
GPU-class devices (7 and 8, the latter an NVIDIA card); the driver is found, every call
reports success, the kernel source is present and the device result is the sum of the
inputs. The `float` operations are played by the integers. -/
def env_sample : Env Int where
  FILE := "src/main.cpp"
  ocl_init := true
  code := fun _ => CL_SUCCESS
  platforms := [1, 2]
  platform_name := fun platform => if platform = 1 then "Intel(R) OpenCL".toList
    else "NVIDIA CUDA".toList
  devices := fun platform type =>
    if platform = 1 ∧ type = .CL_DEVICE_TYPE_CPU then [5]
    else if platform = 2 ∧ type = .CL_DEVICE_TYPE_GPU then [7, 8]
    else []
  device_name := fun device =>
    if device = 5 then "Intel(R) Core(TM) i7".toList
    else if device = 7 then "Intel(R) UHD Graphics".toList
    else "NVIDIA GeForce".toList
  build_log := []
  kernel_sources := "__kernel void aplusb() {}".toList
  nextf := fun k => k
  device_cs := fun i => 4 * i + 1
  zero := 0
  add := fun a b => a + b
  ne := fun a b => decide (a ≠ b)

/-- The sample machine with an empty kernel source file. -/
def env_empty_source : Env Int :=
  { env_sample with kernel_sources := [] }

/-- A machine without an NVIDIA card: its only platform offers the GPU-class device 7
(an AMD card) and the CPU-class device 5. The driver rejects the null device handed to
`clCreateContext` (call 6, `CL_INVALID_DEVICE`) and the null context handed to
`clCreateCommandQueue` (call 7, `CL_INVALID_CONTEXT`). -/
def env_no_nvidia : Env Int :=
  { env_sample with
    platforms := [1]
    devices := fun _ type =>
      if type = .CL_DEVICE_TYPE_CPU then [5]
      else if type = .CL_DEVICE_TYPE_GPU then [7]
      else []
    device_name := fun device =>
      if device = 5 then "Intel(R) Core(TM) i7".toList else "AMD Radeon RX 580".toList
    code := fun k => if k = 6 then -33 else if k = 7 then -34 else CL_SUCCESS }

/-- The sample machine with a driver that answers the query for the GPU-class devices
of platform 1, which has none, with `CL_DEVICE_NOT_FOUND` (call 2), as the OpenCL API
prescribes for an empty result. -/
def env_gpuless_platform : Env Int :=
  { env_sample with code := fun k => if k = 2 then -1 else CL_SUCCESS }

/-- A machine with the CPU platform of the sample machine only; the query for its
GPU-class devices (call 2) is answered with `CL_DEVICE_NOT_FOUND`. -/
def env_cpu_only : Env Int :=
  { env_sample with
    platforms := [1]
    code := fun k => if k = 2 then -1 else CL_SUCCESS }

/-- The sample machine with a driver whose first blocking read of the result buffer
(call 63) reports `CL_OUT_OF_RESOURCES` and whose other calls report success. -/
def env_read_failure : Env Int :=
  { env_sample with code := fun k => if k = 63 then -5 else CL_SUCCESS }

/-- The sample machine with a kernel that does not compile: `clBuildProgram` (call 15)
reports `CL_BUILD_PROGRAM_FAILURE` and `clCreateKernel` (call 18) then reports
`CL_INVALID_PROGRAM_EXECUTABLE`. -/
def env_build_failure : Env Int :=
  { env_sample with code := fun k => if k = 15 then -11 else if k = 18 then -45 else CL_SUCCESS }

/-! ## Supporting facts on the machine arithmetic -/

theorem global_work_size_eq (n : Nat) (h : n < UINT_MOD) :
    global_work_size n 128 = (n + 127) / 128 * 128 := by
  unfold global_work_size size_t_mul size_t_div size_t_sub size_t_add
  unfold UINT_MOD at h
  unfold SIZE_MOD
  norm_num at h ⊢
  omega

/-- C1. For every 32-bit element count `n`, the global work size of line 234 for the
work-group size 128 is a multiple of 128, is at least `n`, is below `n + 128`, and is
the least multiple of 128 that is at least `n`; for `n = 1000` it is 1024. -/
theorem global_work_size_smallest_multiple (n : Nat) (h : n < UINT_MOD) :
    128 ∣ global_work_size n 128 ∧ n ≤ global_work_size n 128 ∧
    global_work_size n 128 < n + 128 ∧
    (∀ m, 128 ∣ m → n ≤ m → global_work_size n 128 ≤ m) ∧
    global_work_size 1000 128 = 1024 := by
  rw [global_work_size_eq n h]
  refine ⟨Dvd.intro_left _ rfl, by omega, by omega, ?_, by decide⟩
  rintro m ⟨k, rfl⟩ hk
  omega

/-- C1 at the element count 1000, which is below `2^32`. -/
theorem global_work_size_smallest_multiple_witness :
    (1000 < UINT_MOD) ∧ 128 ∣ global_work_size 1000 128 ∧ 1000 ≤ global_work_size 1000 128 ∧
    global_work_size 1000 128 < 1000 + 128 ∧
    (∀ m, 128 ∣ m → 1000 ≤ m → global_work_size 1000 128 ≤ m) ∧
    global_work_size 1000 128 = 1024 :=
  ⟨by decide, global_work_size_smallest_multiple 1000 (by decide)⟩

/-- C10. `reportError` returns normally exactly for the success code; for every other
code it throws the message made of "OpenCL error code ", the decimal code,
" encountered at ", the file name, ":" and the line number. -/
theorem reportError_spec (err : cl_int) (filename : String) (line : Int) :
    (reportError err filename line = .ok () ↔ err = CL_SUCCESS) ∧
    reportError err filename line =
      (if err = CL_SUCCESS then .ok ()
       else .error ⟨"OpenCL error code " ++ toString err ++ " encountered at " ++ filename
          ++ ":" ++ toString line⟩) ∧
    reportError (-5) "src/main.cpp" 137 =
      .error ⟨"OpenCL error code -5 encountered at src/main.cpp:137"⟩ := by
  refine ⟨?_, ?_, rfl⟩
  · unfold reportError
    by_cases h : CL_SUCCESS = err
    · rw [if_pos h]
      exact ⟨fun _ => h.symm, fun _ => rfl⟩
    · rw [if_neg h]
      exact ⟨fun e => (by cases e), fun e => absurd e.symm h⟩
  · unfold reportError
    by_cases h : CL_SUCCESS = err
    · rw [if_pos h, if_pos h.symm]
    · rw [if_neg h, if_neg (fun e => h e.symm)]


/-! ## Supporting facts on strings -/

theorem find_ne_npos_iff (s pat : std_string) : find s pat ≠ npos ↔ pat <:+: s := by
  induction s with
  | nil =>
    unfold find npos
    cases pat with
    | nil => simp
    | cons p ps => simp
  | cons c cs ih =>
    unfold find
    rw [List.infix_cons_iff]
    by_cases hp : pat.isPrefixOf (c :: cs) = true
    · rw [if_pos hp]
      have : pat <+: c :: cs := List.isPrefixOf_iff_prefix.mp hp
      simp [npos, this]
    · rw [if_neg hp]
      have hn : ¬ pat <+: c :: cs := fun h => hp (List.isPrefixOf_iff_prefix.mpr h)
      have e : (Option.map (· + 1) (find cs pat) ≠ npos) ↔ find cs pat ≠ npos := by
        unfold npos
        cases find cs pat <;> simp
      rw [e, ih]
      simp [hn]

theorem name_matches_iff_contains (device_name platform_name : std_string) :
    name_matches device_name platform_name = true ↔ platform_name <:+: tolower device_name := by
  unfold name_matches
  rw [← find_ne_npos_iff]
  simp

theorem toLower_isUpper (c : Char) : c.toLower.isUpper = false := by
  by_cases h : c.toNat ≥ 65 ∧ c.toNat ≤ 90
  · have hc : c = Char.ofNat c.toNat := (Char.ofNat_toNat c).symm
    obtain ⟨h1, h2⟩ := h
    generalize c.toNat = n at hc h1 h2
    subst hc
    interval_cases n <;> decide
  · have e : c.toLower = c := by
      unfold Char.toLower
      simp only [h, if_false]
    rw [e]
    unfold Char.isUpper
    unfold Char.toNat at h
    simp only [ge_iff_le, Bool.and_eq_false_imp, decide_eq_true_eq, decide_eq_false_iff_not]
    intro h1 h2
    apply h
    constructor
    · exact h1
    · exact h2

theorem tolower_no_upper (s : std_string) : ∀ c ∈ tolower s, c.isUpper = false := by
  intro c hc
  unfold tolower at hc
  obtain ⟨d, _, rfl⟩ := List.mem_map.mp hc
  exact toLower_isUpper d

/-- C3, as amended. The name test lower-cases the device name only: a device is
matched exactly when its lower-cased name contains the preference string as it is
written. For a preference string that is already in lower case this is the
case-insensitive substring match; a preference string with an upper-case letter
matches no device. -/
theorem name_matches_spec (device_name platform_name : std_string) :
    (name_matches device_name platform_name = true ↔
      platform_name <:+: tolower device_name) ∧
    (tolower platform_name = platform_name →
      (name_matches device_name platform_name = true ↔
        case_insensitive_match device_name platform_name)) ∧
    ((∃ c ∈ platform_name, c.isUpper = true) →
      name_matches device_name platform_name = false) := by
  refine ⟨name_matches_iff_contains _ _, ?_, ?_⟩
  · intro h
    unfold case_insensitive_match
    rw [h]
    exact name_matches_iff_contains _ _
  · rintro ⟨c, hc, hu⟩
    cases hm : name_matches device_name platform_name with
    | false => rfl
    | true =>
      have hin := (name_matches_iff_contains _ _).mp hm
      have := tolower_no_upper device_name c (hin.subset hc)
      rw [hu] at this
      cases this

/-- C3 at the device name "NVIDIA GeForce": the lower-case preference "nvidia" is
matched case-insensitively, the preference "NVIDIA" is rejected. -/
theorem name_matches_spec_witness :
    (name_matches "NVIDIA GeForce".toList "nvidia".toList = true ↔
      case_insensitive_match "NVIDIA GeForce".toList "nvidia".toList) ∧
    name_matches "NVIDIA GeForce".toList "NVIDIA".toList = false :=
  ⟨(name_matches_spec "NVIDIA GeForce".toList "nvidia".toList).2.1 (by decide),
   (name_matches_spec "NVIDIA GeForce".toList "NVIDIA".toList).2.2 ⟨'N', by decide, by decide⟩⟩

/-- C3, counterexample. The preference "NVIDIA" is contained in the device name
"NVIDIA GeForce" when letter case is ignored on both sides, yet the name test of
`select_gpu` rejects the device, while it accepts it for the preference "nvidia". -/
theorem name_matches_upper_case_preference :
    case_insensitive_match "NVIDIA GeForce".toList "NVIDIA".toList ∧
    name_matches "NVIDIA GeForce".toList "NVIDIA".toList = false ∧
    name_matches "NVIDIA GeForce".toList "nvidia".toList = true := by
  refine ⟨?_, by decide, by decide⟩
  unfold case_insensitive_match
  exact ⟨[], " geforce".toList, by decide⟩

/-! ## Supporting facts on the validation loop -/

section ValidationFacts

variable {float : Type} (add : float → float → float) (ne : float → float → Bool)
  (as bs cs : Nat → float)

theorem validate_from_all_equal (k i : Nat)
    (h : ∀ j, i ≤ j → j < i + k → ne (cs j) (add (as j) (bs j)) = false) :
    validate_from add ne as bs cs i k = (List.range' i k, .ok ()) := by
  induction k generalizing i with
  | zero => simp [validate_from]
  | succ k ih =>
    have h0 : ne (cs i) (add (as i) (bs i)) = false := h i (Nat.le_refl i) (by omega)
    have hr := ih (i + 1) (fun j h1 h2 => h j (by omega) (by omega))
    simp [validate_from, h0, hr, List.range'_succ]

theorem validate_from_first_mismatch (k i j : Nat) (hij : i ≤ j) (hjk : j < i + k)
    (hne : ne (cs j) (add (as j) (bs j)) = true)
    (hfirst : ∀ l, i ≤ l → l < j → ne (cs l) (add (as l) (bs l)) = false) :
    validate_from add ne as bs cs i k =
      (List.range' i (j - i + 1), .error ⟨"CPU and GPU results differ!"⟩) := by
  induction k generalizing i with
  | zero => omega
  | succ k ih =>
    by_cases e : i = j
    · subst e
      simp [validate_from, hne]
    · have h0 : ne (cs i) (add (as i) (bs i)) = false := hfirst i (Nat.le_refl i) (by omega)
      have hr := ih (i + 1) (by omega) (by omega) (fun l h1 h2 => hfirst l (by omega) h2)
      have e2 : j - i + 1 = (j - (i + 1) + 1) + 1 := by omega
      simp [validate_from, h0, hr, e2, List.range'_succ]

end ValidationFacts

section ValidationClaim

variable {float : Type}

/-- C7. The validation loop throws the result-mismatch error exactly when some index
below `n` has `cs[i] != as[i] + bs[i]`; it then stops at the least such index, having
compared the elements at the indices up to it and no later one; a loop that ends
without throwing has compared every index below `n` and found no difference. -/
theorem validate_spec (add : float → float → float) (ne : float → float → Bool)
    (as bs cs : Nat → float) (n : Nat) :
    ((validate add ne as bs cs n).2 = .error ⟨"CPU and GPU results differ!"⟩ ↔
      ∃ i, i < n ∧ ne (cs i) (add (as i) (bs i)) = true) ∧
    ((validate add ne as bs cs n).2 = .ok () ↔
      ∀ i, i < n → ne (cs i) (add (as i) (bs i)) = false) ∧
    (∀ i, i < n → ne (cs i) (add (as i) (bs i)) = true →
      (∀ j, j < i → ne (cs j) (add (as j) (bs j)) = false) →
      validate add ne as bs cs n =
        (List.range (i + 1), .error ⟨"CPU and GPU results differ!"⟩)) ∧
    ((validate add ne as bs cs n).2 = .ok () →
      (validate add ne as bs cs n).1 = List.range n) := by
  have hfirst : ∀ i, i < n → ne (cs i) (add (as i) (bs i)) = true →
      (∀ j, j < i → ne (cs j) (add (as j) (bs j)) = false) →
      validate add ne as bs cs n =
        (List.range (i + 1), .error ⟨"CPU and GPU results differ!"⟩) := by
    intro i hi hne hlt
    have := validate_from_first_mismatch add ne as bs cs n 0 i (Nat.zero_le i) (by omega) hne
      (fun l _ h2 => hlt l h2)
    rw [List.range_eq_range']
    simpa [validate] using this
  have hall : (∀ i, i < n → ne (cs i) (add (as i) (bs i)) = false) →
      validate add ne as bs cs n = (List.range n, .ok ()) := by
    intro h
    have := validate_from_all_equal add ne as bs cs n 0 (fun j _ h2 => h j (by omega))
    rw [List.range_eq_range']
    simpa [validate] using this
  have hcases : (∃ i, i < n ∧ ne (cs i) (add (as i) (bs i)) = true) ∨
      (∀ i, i < n → ne (cs i) (add (as i) (bs i)) = false) := by
    by_cases h : ∃ i, i < n ∧ ne (cs i) (add (as i) (bs i)) = true
    · exact Or.inl h
    · right
      intro i hi
      cases hv : ne (cs i) (add (as i) (bs i)) with
      | false => rfl
      | true => exact absurd ⟨i, hi, hv⟩ h
  have hleast : (∃ i, i < n ∧ ne (cs i) (add (as i) (bs i)) = true) →
      validate add ne as bs cs n =
        ((validate add ne as bs cs n).1, .error ⟨"CPU and GPU results differ!"⟩) := by
    intro h
    classical
    have hs := Nat.find_spec h
    have hm : ∀ j, j < Nat.find h → ne (cs j) (add (as j) (bs j)) = false := by
      intro j hj
      cases hv : ne (cs j) (add (as j) (bs j)) with
      | false => rfl
      | true => exact absurd ⟨by omega, hv⟩ (Nat.find_min h hj)
    rw [hfirst (Nat.find h) hs.1 hs.2 hm]
  refine ⟨⟨?_, ?_⟩, ⟨?_, ?_⟩, hfirst, ?_⟩
  · intro herr
    rcases hcases with h | h
    · exact h
    · rw [hall h] at herr
      cases herr
  · intro h
    rw [hleast h]
  · intro hok i hi
    rcases hcases with h | h
    · rw [hleast h] at hok
      cases hok
    · exact h i hi
  · intro h
    rw [hall h]
  · intro hok
    rcases hcases with h | h
    · rw [hleast h] at hok
      cases hok
    · rw [hall h]

end ValidationClaim


/-! ## Supporting facts on computations -/

section RunFacts

variable {float : Type} {α β : Type}

@[simp] theorem run_pure_apply (a : α) (tr : List ApiCall) :
    (pure a : Run α) tr = (.ok a, tr) := rfl

@[simp] theorem raise_apply (e : runtime_error) (tr : List ApiCall) :
    (raise e : Run α) tr = (.error e, tr) := rfl

@[simp] theorem liftExcept_apply (r : Except runtime_error α) (tr : List ApiCall) :
    liftExcept r tr = (r, tr) := rfl

theorem run_bind_apply (m : Run α) (f : α → Run β) (tr : List ApiCall) :
    (m >>= f) tr =
      match m tr with
      | (.ok a, tr1) => f a tr1
      | (.error e, tr1) => (.error e, tr1) := rfl

theorem run_bind_of_ok (m : Run α) (f : α → Run β) (tr : List ApiCall) (a : α)
    (h : (m tr).1 = .ok a) : (m >>= f) tr = f a (m tr).2 := by
  rw [run_bind_apply]
  rcases hm : m tr with ⟨r, tr1⟩
  rw [hm] at h
  simp only at h
  subst h
  rfl

theorem run_bind_of_error (m : Run α) (f : α → Run β) (tr : List ApiCall) (e : runtime_error)
    (h : (m tr).1 = .error e) : (m >>= f) tr = (.error e, (m tr).2) := by
  rw [run_bind_apply]
  rcases hm : m tr with ⟨r, tr1⟩
  rw [hm] at h
  simp only at h
  subst h
  rfl

theorem run_bind_ok_iff (m : Run α) (f : α → Run β) (tr : List ApiCall) (b : β) :
    ((m >>= f) tr).1 = .ok b ↔ ∃ a, (m tr).1 = .ok a ∧ (f a (m tr).2).1 = .ok b := by
  rcases hm : (m tr).1 with e | a
  · rw [run_bind_of_error m f tr e hm]
    simp
  · rw [run_bind_of_ok m f tr a hm]
    simp

theorem raise_bind (e : runtime_error) (f : α → Run β) : (raise e >>= f) = raise e := rfl

theorem run_pure_bind (a : α) (f : α → Run β) : (pure a >>= f) = f a := rfl

end RunFacts

section SelectFacts

variable {float : Type} (env : Env float)

theorem api_success (hs : ∀ k, env.code k = CL_SUCCESS) (c : ApiCall) (tr : List ApiCall) :
    api env c tr = (.ok CL_SUCCESS, tr ++ [c]) := by
  unfold api
  rw [hs]

theorem reportError_success (filename : String) (line : Int) :
    reportError CL_SUCCESS filename line = .ok () := by
  unfold reportError
  rw [if_pos rfl]

theorem safe_call_api_success (hs : ∀ k, env.code k = CL_SUCCESS) (line : Int) (c : ApiCall)
    (tr : List ApiCall) : OCL_SAFE_CALL env line (api env c) tr = (.ok (), tr ++ [c]) := by
  unfold OCL_SAFE_CALL
  rw [run_bind_apply, api_success env hs]
  simp only [liftExcept_apply, reportError_success]

theorem get_devices_success (hs : ∀ k, env.code k = CL_SUCCESS) (platform : cl_platform_id)
    (type : cl_device_type) (tr : List ApiCall) :
    (get_devices env platform type tr).1 = .ok (env.devices platform type) := by
  unfold get_devices
  rw [run_bind_apply, safe_call_api_success env hs]
  simp only
  split_ifs with h
  · rw [run_bind_apply, safe_call_api_success env hs]
    rfl
  · rfl

theorem get_devices_ok (platform : cl_platform_id) (type : cl_device_type)
    (tr : List ApiCall) (devices : List Nat)
    (h : (get_devices env platform type tr).1 = .ok devices) :
    devices = env.devices platform type := by
  unfold get_devices at h
  rw [run_bind_ok_iff] at h
  obtain ⟨_, _, h⟩ := h
  split_ifs at h
  · rw [run_bind_ok_iff] at h
    obtain ⟨_, _, h⟩ := h
    simp only [run_pure_apply, Except.ok.injEq] at h
    exact h.symm
  · rw [run_bind_ok_iff] at h
    obtain ⟨_, _, h⟩ := h
    simp only [run_pure_apply, Except.ok.injEq] at h
    exact h.symm

theorem get_device_name_success (hs : ∀ k, env.code k = CL_SUCCESS) (device : Nat)
    (tr : List ApiCall) :
    get_device_name env device tr =
      (.ok (env.device_name device), tr ++ [.clGetDeviceInfo device] ++ [.clGetDeviceInfo device]) := by
  unfold get_device_name
  rw [run_bind_apply, safe_call_api_success env hs]
  simp only
  rw [run_bind_apply, safe_call_api_success env hs]
  rfl

theorem get_device_name_ok (device : Nat) (tr : List ApiCall) (name : std_string)
    (h : (get_device_name env device tr).1 = .ok name) : name = env.device_name device := by
  unfold get_device_name at h
  rw [run_bind_ok_iff] at h
  obtain ⟨_, _, h⟩ := h
  rw [run_bind_ok_iff] at h
  obtain ⟨_, _, h⟩ := h
  simp only [run_pure_apply, Except.ok.injEq] at h
  exact h.symm

theorem select_gpu_devices_success (hs : ∀ k, env.code k = CL_SUCCESS)
    (platform_name : std_string) (devices : List Nat) (tr : List ApiCall) :
    (select_gpu_devices env platform_name devices tr).1 =
      .ok (devices.find? (fun d => name_matches (env.device_name d) platform_name)) := by
  induction devices generalizing tr with
  | nil => rfl
  | cons device devices ih =>
    unfold select_gpu_devices
    rw [run_bind_apply, get_device_name_success env hs]
    simp only [List.find?_cons]
    cases hm : name_matches (env.device_name device) platform_name with
    | true => rfl
    | false =>
      simp only [Bool.false_eq_true, if_false]
      exact ih _

theorem select_gpu_devices_ok (platform_name : std_string) (devices : List Nat)
    (tr : List ApiCall) (d : Nat)
    (h : (select_gpu_devices env platform_name devices tr).1 = .ok (some d)) :
    d ∈ devices ∧ name_matches (env.device_name d) platform_name = true := by
  induction devices generalizing tr with
  | nil =>
    simp [select_gpu_devices] at h
  | cons device devices ih =>
    unfold select_gpu_devices at h
    rw [run_bind_ok_iff] at h
    obtain ⟨name, hname, h⟩ := h
    have e := get_device_name_ok env device tr name hname
    subst e
    cases hm : name_matches (env.device_name device) platform_name with
    | true =>
      rw [hm] at h
      simp only [if_true, run_pure_apply, Except.ok.injEq, Option.some.injEq] at h
      subst h
      exact ⟨List.mem_cons_self _ _, hm⟩
    | false =>
      rw [hm] at h
      simp only [Bool.false_eq_true, if_false] at h
      have := ih _ h
      exact ⟨List.mem_cons_of_mem _ this.1, this.2⟩

theorem select_gpu_success (hs : ∀ k, env.code k = CL_SUCCESS)
    (platforms : List cl_platform_id) (platform_name : std_string) (tr : List ApiCall) :
    (select_gpu env platforms platform_name tr).1 =
      .ok ((gpu_devices env platforms).find?
        (fun d => name_matches (env.device_name d) platform_name)) := by
  induction platforms generalizing tr with
  | nil => rfl
  | cons platform platforms ih =>
    unfold select_gpu
    rw [run_bind_of_ok _ _ tr _ (get_devices_success env hs platform _ tr)]
    have eg : gpu_devices env (platform :: platforms) =
        env.devices platform .CL_DEVICE_TYPE_GPU ++ gpu_devices env platforms := by
      simp [gpu_devices]
    rw [eg, List.find?_append]
    split_ifs with hempty
    · rw [List.isEmpty_iff] at hempty
      rw [hempty]
      exact ih _
    · rw [run_bind_of_ok _ _ _ _ (select_gpu_devices_success env hs platform_name _ _)]
      cases hf : List.find? (fun d => name_matches (env.device_name d) platform_name)
          (env.devices platform .CL_DEVICE_TYPE_GPU) with
      | none => exact ih _
      | some d => rfl

theorem select_gpu_ok (platforms : List cl_platform_id) (platform_name : std_string)
    (tr : List ApiCall) (d : Nat)
    (h : (select_gpu env platforms platform_name tr).1 = .ok (some d)) :
    (∃ platform ∈ platforms, d ∈ env.devices platform .CL_DEVICE_TYPE_GPU) ∧
      name_matches (env.device_name d) platform_name = true := by
  induction platforms generalizing tr with
  | nil =>
    simp [select_gpu] at h
  | cons platform platforms ih =>
    unfold select_gpu at h
    rw [run_bind_ok_iff] at h
    obtain ⟨devices, hdev, h⟩ := h
    have e := get_devices_ok env platform _ tr devices hdev
    subst e
    have hrest : ∀ tr1, (select_gpu env platforms platform_name tr1).1 = .ok (some d) →
        (∃ p ∈ platform :: platforms, d ∈ env.devices p .CL_DEVICE_TYPE_GPU) ∧
          name_matches (env.device_name d) platform_name = true := by
      intro tr1 h1
      obtain ⟨⟨p, hp, hd⟩, hm⟩ := ih tr1 h1
      exact ⟨⟨p, List.mem_cons_of_mem _ hp, hd⟩, hm⟩
    split_ifs at h with hempty
    · exact hrest _ h
    · rw [run_bind_ok_iff] at h
      obtain ⟨r, hr, h⟩ := h
      cases r with
      | none => exact hrest _ h
      | some d1 =>
        simp only [run_pure_apply, Except.ok.injEq, Option.some.injEq] at h
        subst h
        obtain ⟨hd, hm⟩ := select_gpu_devices_ok env platform_name _ _ _ hr
        exact ⟨⟨platform, List.mem_cons_self _ _, hd⟩, hm⟩

end SelectFacts


section EmitsFacts

variable {float : Type} {α β : Type} (env : Env float) (P : ApiCall → Prop)

theorem emits_pure (a : α) : Emits P (pure a : Run α) :=
  fun tr => ⟨[], by simp, by simp⟩

theorem emits_raise (e : runtime_error) : Emits P (raise e : Run α) :=
  fun tr => ⟨[], by simp, by simp⟩

theorem emits_liftExcept (r : Except runtime_error α) : Emits P (liftExcept r) :=
  fun tr => ⟨[], by simp, by simp⟩

theorem emits_bind (m : Run α) (f : α → Run β) (hm : Emits P m) (hf : ∀ a, Emits P (f a)) :
    Emits P (m >>= f) := by
  intro tr
  obtain ⟨new1, h1, hp1⟩ := hm tr
  rcases hr : (m tr).1 with e | a
  · rw [run_bind_of_error m f tr e hr]
    exact ⟨new1, h1, hp1⟩
  · rw [run_bind_of_ok m f tr a hr]
    obtain ⟨new2, h2, hp2⟩ := hf a (m tr).2
    refine ⟨new1 ++ new2, ?_, ?_⟩
    · rw [h2, h1, List.append_assoc]
    · intro c hc
      rcases List.mem_append.mp hc with h | h
      · exact hp1 c h
      · exact hp2 c h

theorem emits_ite (c : Prop) [Decidable c] (a b : Run α) (ha : Emits P a) (hb : Emits P b) :
    Emits P (if c then a else b) := by
  split_ifs
  · exact ha
  · exact hb

theorem emits_api (c : ApiCall) (hc : P c) : Emits P (api env c) :=
  fun tr => ⟨[c], rfl, by simpa using hc⟩

theorem emits_api_create (c : ApiCall) (hc : P c) : Emits P (api_create env c) :=
  fun tr => ⟨[c], rfl, by simpa using hc⟩

theorem emits_safe_call (line : Int) (expr : Run cl_int) (h : Emits P expr) :
    Emits P (OCL_SAFE_CALL env line expr) := by
  unfold OCL_SAFE_CALL
  exact emits_bind P _ _ h (fun _ => emits_liftExcept P _)

theorem fails_raise (e : runtime_error) : Fails (raise e : Run α) :=
  fun _ => ⟨e, rfl⟩

theorem fails_bind (m : Run α) (f : α → Run β) (hf : ∀ a, Fails (f a)) : Fails (m >>= f) := by
  intro tr
  rcases hr : (m tr).1 with e | a
  · rw [run_bind_of_error m f tr e hr]
    exact ⟨e, rfl⟩
  · rw [run_bind_of_ok m f tr a hr]
    exact hf a _

theorem fails_ite (c : Prop) [Decidable c] (a b : Run α) (ha : Fails a) (hb : Fails b) :
    Fails (if c then a else b) := by
  split_ifs
  · exact ha
  · exact hb

end EmitsFacts

section AcquisitionFacts

variable {float : Type} (env : Env float)

theorem emits_get_platforms :
    Emits (fun c => c.is_acquisition = true) (get_platforms env) := by
  unfold get_platforms
  refine emits_bind _ _ _ (emits_safe_call env _ _ _ (emits_api env _ _ rfl)) (fun _ => ?_)
  refine emits_bind _ _ _ (emits_safe_call env _ _ _ (emits_api env _ _ rfl)) (fun _ => ?_)
  exact emits_pure _ _

theorem emits_get_devices (platform : cl_platform_id) (type : cl_device_type) :
    Emits (fun c => c.is_acquisition = true) (get_devices env platform type) := by
  unfold get_devices
  refine emits_bind _ _ _ (emits_safe_call env _ _ _ (emits_api env _ _ rfl)) (fun _ => ?_)
  refine emits_ite _ _ _ _ ?_ ?_
  · refine emits_bind _ _ _ (emits_safe_call env _ _ _ (emits_api env _ _ rfl)) (fun _ => ?_)
    exact emits_pure _ _
  · exact emits_bind _ _ _ (emits_pure _ _) (fun _ => emits_pure _ _)

theorem emits_get_device_name (device : Nat) :
    Emits (fun c => c.is_acquisition = true) (get_device_name env device) := by
  unfold get_device_name
  refine emits_bind _ _ _ (emits_safe_call env _ _ _ (emits_api env _ _ rfl)) (fun _ => ?_)
  refine emits_bind _ _ _ (emits_safe_call env _ _ _ (emits_api env _ _ rfl)) (fun _ => ?_)
  exact emits_pure _ _

theorem emits_select_gpu_devices (platform_name : std_string) (devices : List Nat) :
    Emits (fun c => c.is_acquisition = true) (select_gpu_devices env platform_name devices) := by
  induction devices with
  | nil => exact emits_pure _ _
  | cons device devices ih =>
    unfold select_gpu_devices
    refine emits_bind _ _ _ (emits_get_device_name env device) (fun name => ?_)
    exact emits_ite _ _ _ _ (emits_pure _ _) ih

theorem emits_select_gpu (platforms : List cl_platform_id) (platform_name : std_string) :
    Emits (fun c => c.is_acquisition = true) (select_gpu env platforms platform_name) := by
  induction platforms with
  | nil => exact emits_pure _ _
  | cons platform platforms ih =>
    unfold select_gpu
    refine emits_bind _ _ _ (emits_get_devices env platform _) (fun devices => ?_)
    refine emits_ite _ _ _ _ ih ?_
    refine emits_bind _ _ _ (emits_select_gpu_devices env platform_name devices) (fun r => ?_)
    cases r with
    | none => exact ih
    | some d => exact emits_pure _ _

theorem emits_create_context (device : cl_device_id) :
    Emits (fun c => c.is_acquisition = true) (create_context env device) := by
  unfold create_context
  exact emits_bind _ _ _ (emits_api_create env _ _ rfl) (fun _ => emits_pure _ _)

theorem get_platforms_success (hs : ∀ k, env.code k = CL_SUCCESS) (tr : List ApiCall) :
    (get_platforms env tr).1 = .ok env.platforms := by
  unfold get_platforms
  rw [run_bind_apply, safe_call_api_success env hs]
  simp only
  rw [run_bind_apply, safe_call_api_success env hs]
  rfl

theorem api_create_success (hs : ∀ k, env.code k = CL_SUCCESS) (c : ApiCall)
    (tr : List ApiCall) :
    api_create env c tr = (.ok (some tr.length, CL_SUCCESS), tr ++ [c]) := by
  unfold api_create
  simp only [hs, if_true]

theorem safe_call_pure_success (line : Int) (tr : List ApiCall) :
    OCL_SAFE_CALL env line (pure CL_SUCCESS) tr = (.ok (), tr) := by
  unfold OCL_SAFE_CALL
  rw [run_bind_apply]
  simp only [run_pure_apply, liftExcept_apply, reportError_success]

end AcquisitionFacts

section EmptySource

variable {float : Type}

/-- C9, as amended. With an empty kernel source the run ends with an exception; every
device-API call it makes belongs to the acquisition phase (enumeration, context, queue
and buffer creation), so that no program is created or built; and when the driver is
found and every call reports success, the exception is the empty-source error, thrown
after the context, the queue and the three buffers have been created. -/
theorem main_empty_source (env : Env float) (n : Nat) (h : env.kernel_sources = []) :
    (∃ e, (main env n []).1 = .error e) ∧
    (∀ c ∈ (main env n []).2, c.is_acquisition = true) ∧
    (env.ocl_init = true → (∀ k, env.code k = CL_SUCCESS) →
      (main env n []).1 = .error
        ⟨"Empty source file! May be you forgot to configure working directory properly?"⟩ ∧
      ∃ before device context, (main env n []).2 = before ++
        [.clCreateContext device, .clCreateCommandQueue context device,
         .clCreateBuffer (size_t_mul n sizeof_float),
         .clCreateBuffer (size_t_mul n sizeof_float),
         .clCreateBuffer (size_t_mul n sizeof_float)]) := by
  have hmain : main env n =
      (if (!env.ocl_init) = true then raise ⟨"Can't init OpenCL driver!"⟩
       else do
        pure PUnit.unit
        let platforms ← get_platforms env
        let device ← select_gpu env platforms "nvidia".toList
        let context ← create_context env device
        let r ← api_create env (.clCreateCommandQueue context device)
        OCL_SAFE_CALL env 137 (pure r.2)
        let r ← api_create env (.clCreateBuffer (size_t_mul n sizeof_float))
        OCL_SAFE_CALL env 160 (pure r.2)
        let r ← api_create env (.clCreateBuffer (size_t_mul n sizeof_float))
        OCL_SAFE_CALL env 164 (pure r.2)
        let r ← api_create env (.clCreateBuffer (size_t_mul n sizeof_float))
        OCL_SAFE_CALL env 168 (pure r.2)
        raise ⟨"Empty source file! May be you forgot to configure working directory properly?"⟩) := by
    unfold main
    simp only [h, List.length_nil, raise_bind, if_true]
  refine ⟨?_, ?_, ?_⟩
  · rw [hmain]
    refine fails_ite _ _ _ (fails_raise _) ?_ []
    iterate 12 refine fails_bind _ _ (fun _ => ?_)
    exact fails_raise _
  · have hE : Emits (fun c => c.is_acquisition = true) (main env n) := by
      rw [hmain]
      refine emits_ite _ _ _ _ (emits_raise _ _) ?_
      refine emits_bind _ _ _ (emits_pure _ _) (fun _ => ?_)
      refine emits_bind _ _ _ (emits_get_platforms env) (fun _ => ?_)
      refine emits_bind _ _ _ (emits_select_gpu env _ _) (fun _ => ?_)
      refine emits_bind _ _ _ (emits_create_context env _) (fun _ => ?_)
      refine emits_bind _ _ _ (emits_api_create env _ _ rfl) (fun _ => ?_)
      refine emits_bind _ _ _ (emits_safe_call env _ _ _ (emits_pure _ _)) (fun _ => ?_)
      refine emits_bind _ _ _ (emits_api_create env _ _ rfl) (fun _ => ?_)
      refine emits_bind _ _ _ (emits_safe_call env _ _ _ (emits_pure _ _)) (fun _ => ?_)
      refine emits_bind _ _ _ (emits_api_create env _ _ rfl) (fun _ => ?_)
      refine emits_bind _ _ _ (emits_safe_call env _ _ _ (emits_pure _ _)) (fun _ => ?_)
      refine emits_bind _ _ _ (emits_api_create env _ _ rfl) (fun _ => ?_)
      refine emits_bind _ _ _ (emits_safe_call env _ _ _ (emits_pure _ _)) (fun _ => ?_)
      exact emits_raise _ _
    obtain ⟨new, hnew, hp⟩ := hE []
    rw [hnew]
    simpa using hp
  · intro hinit hs
    rw [hmain, hinit]
    simp only [Bool.not_true, Bool.false_eq_true, if_false]
    rw [run_bind_apply]
    simp only [run_pure_apply]
    rw [run_bind_of_ok _ _ _ _ (get_platforms_success env hs _)]
    rw [run_bind_of_ok _ _ _ _ (select_gpu_success env hs _ _ _)]
    generalize (select_gpu env env.platforms "nvidia".toList (get_platforms env []).2).2 = tr
    generalize List.find? (fun d => name_matches (env.device_name d) "nvidia".toList)
      (gpu_devices env env.platforms) = device
    unfold create_context
    simp only [run_bind_apply, api_create_success env hs, safe_call_pure_success,
      run_pure_apply, raise_apply, true_and]
    exact ⟨tr, device, some tr.length, by simp⟩

end EmptySource


section SelectSupport

variable {float : Type}

/-- Supporting fact on `select_gpu`. Whatever device it returns is one of the GPU-class
devices of the given platforms and passes the name test. When every enumeration call
reports success, it returns the first device that passes the name test, platforms taken
in the given order and the GPU-class devices of each platform in the driver's order,
and it returns `nullptr` exactly when no GPU-class device passes the test. -/
theorem select_gpu_when_calls_succeed (env : Env float) (platforms : List cl_platform_id)
    (platform_name : std_string) (tr : List ApiCall) :
    (∀ d, (select_gpu env platforms platform_name tr).1 = .ok (some d) →
      (∃ platform ∈ platforms, d ∈ env.devices platform .CL_DEVICE_TYPE_GPU) ∧
      name_matches (env.device_name d) platform_name = true) ∧
    ((∀ k, env.code k = CL_SUCCESS) →
      (select_gpu env platforms platform_name tr).1 =
        .ok ((gpu_devices env platforms).find?
          (fun d => name_matches (env.device_name d) platform_name)) ∧
      (∀ d, (select_gpu env platforms platform_name tr).1 = .ok (some d) ↔
        name_matches (env.device_name d) platform_name = true ∧
        ∃ before after, gpu_devices env platforms = before ++ d :: after ∧
          ∀ x ∈ before, name_matches (env.device_name x) platform_name = false) ∧
      ((select_gpu env platforms platform_name tr).1 = .ok none ↔
        ∀ d ∈ gpu_devices env platforms,
          name_matches (env.device_name d) platform_name = false)) := by
  refine ⟨fun d h => select_gpu_ok env platforms platform_name tr d h, fun hs => ?_⟩
  have hr := select_gpu_success env hs platforms platform_name tr
  refine ⟨hr, fun d => ?_, ?_⟩
  · rw [hr]
    simp only [Except.ok.injEq, List.find?_eq_some, Bool.not_eq_true']
  · rw [hr]
    simp only [Except.ok.injEq, List.find?_eq_none, Bool.not_eq_true]

end SelectSupport

/-- C2. On the sample machine with a conforming driver, platform 1 has no GPU-class
device and the query for them is answered with `CL_DEVICE_NOT_FOUND`; `select_gpu`
throws at line 41 and `main` ends there, although device 8 of platform 2 is a GPU-class
device that passes the name test. On a machine with the CPU platform only, `select_gpu`
throws in the same way where `nullptr` is expected. -/
theorem select_gpu_throws_on_gpuless_platform :
    env_gpuless_platform.devices 1 .CL_DEVICE_TYPE_GPU = [] ∧
    env_gpuless_platform.code 2 = -1 ∧
    gpu_devices env_gpuless_platform [1, 2] = [7, 8] ∧
    name_matches (env_gpuless_platform.device_name 7) "nvidia".toList = false ∧
    name_matches (env_gpuless_platform.device_name 8) "nvidia".toList = true ∧
    select_gpu env_gpuless_platform [1, 2] "nvidia".toList
        [.clGetPlatformIDs, .clGetPlatformIDs] =
      (.error ⟨"OpenCL error code -1 encountered at src/main.cpp:41"⟩,
       [.clGetPlatformIDs, .clGetPlatformIDs, .clGetDeviceIDs 1 .CL_DEVICE_TYPE_GPU]) ∧
    main env_gpuless_platform 3 [] =
      (.error ⟨"OpenCL error code -1 encountered at src/main.cpp:41"⟩,
       [.clGetPlatformIDs, .clGetPlatformIDs, .clGetDeviceIDs 1 .CL_DEVICE_TYPE_GPU]) ∧
    gpu_devices env_cpu_only [1] = [] ∧
    select_gpu env_cpu_only [1] "nvidia".toList [.clGetPlatformIDs, .clGetPlatformIDs] =
      (.error ⟨"OpenCL error code -1 encountered at src/main.cpp:41"⟩,
       [.clGetPlatformIDs, .clGetPlatformIDs, .clGetDeviceIDs 1 .CL_DEVICE_TYPE_GPU]) :=
  ⟨by decide, rfl, by decide, by decide, by decide, rfl, rfl, by decide, rfl⟩

/-- C4. On a machine whose only GPU-class device is not an NVIDIA card and which has a
CPU-class device, `select_gpu` returns `nullptr`; `main` hands the null device to
`clCreateContext` and to `clCreateCommandQueue` and the run ends with the driver error
of the latter. No CPU-class device is asked for. -/
theorem select_gpu_no_cpu_fallback :
    env_no_nvidia.devices 1 .CL_DEVICE_TYPE_CPU = [5] ∧
    gpu_devices env_no_nvidia env_no_nvidia.platforms = [7] ∧
    name_matches (env_no_nvidia.device_name 7) "nvidia".toList = false ∧
    (select_gpu env_no_nvidia env_no_nvidia.platforms "nvidia".toList []).1 = .ok none ∧
    main env_no_nvidia 3 [] =
      (.error ⟨"OpenCL error code -34 encountered at src/main.cpp:137"⟩,
       [.clGetPlatformIDs, .clGetPlatformIDs,
        .clGetDeviceIDs 1 .CL_DEVICE_TYPE_GPU, .clGetDeviceIDs 1 .CL_DEVICE_TYPE_GPU,
        .clGetDeviceInfo 7, .clGetDeviceInfo 7,
        .clCreateContext none, .clCreateCommandQueue none none]) :=
  ⟨by decide, by decide, by decide, rfl, rfl⟩

section SessionClaim

variable {float : Type}

end SessionClaim

/-- C8. With a driver whose first blocking read of the result buffer reports
`CL_OUT_OF_RESOURCES`, `main` makes the remaining 19 reads and the release calls and
returns 0. With a driver whose `clBuildProgram` reports `CL_BUILD_PROGRAM_FAILURE`,
`main` goes on to fetch the build log and to create the kernel, and the run ends with
the status of `clCreateKernel` at line 211. -/
theorem main_continues_after_failed_calls :
    env_read_failure.code 63 = -5 ∧
    (main env_read_failure 3 []).2[63]? = some (.clEnqueueReadBuffer 12) ∧
    (main env_read_failure 3 []).2.length = 89 ∧
    (main env_read_failure 3 []).1 = .ok 0 ∧
    env_build_failure.code 15 = -11 ∧
    main env_build_failure 3 [] =
      (.error ⟨"OpenCL error code -45 encountered at src/main.cpp:211"⟩,
       [.clGetPlatformIDs, .clGetPlatformIDs,
        .clGetDeviceIDs 1 .CL_DEVICE_TYPE_GPU,
        .clGetDeviceIDs 2 .CL_DEVICE_TYPE_GPU, .clGetDeviceIDs 2 .CL_DEVICE_TYPE_GPU,
        .clGetDeviceInfo 7, .clGetDeviceInfo 7, .clGetDeviceInfo 8, .clGetDeviceInfo 8,
        .clCreateContext (some 8), .clCreateCommandQueue (some 9) (some 8),
        .clCreateBuffer 12, .clCreateBuffer 12, .clCreateBuffer 12,
        .clCreateProgramWithSource, .clBuildProgram,
        .clGetProgramBuildInfo (some 8), .clGetProgramBuildInfo (some 8),
        .clCreateKernel]) :=
  ⟨rfl, rfl, rfl, rfl, rfl, rfl⟩

/-- C9 on the sample machine with an empty kernel source. -/
theorem main_empty_source_witness :
    env_empty_source.kernel_sources = [] ∧
    (∃ e, (main env_empty_source 3 []).1 = .error e) ∧
    (∀ c ∈ (main env_empty_source 3 []).2, c.is_acquisition = true) ∧
    (env_empty_source.ocl_init = true → (∀ k, env_empty_source.code k = CL_SUCCESS) →
      (main env_empty_source 3 []).1 = .error
        ⟨"Empty source file! May be you forgot to configure working directory properly?"⟩ ∧
      ∃ before device context, (main env_empty_source 3 []).2 = before ++
        [.clCreateContext device, .clCreateCommandQueue context device,
         .clCreateBuffer (size_t_mul 3 sizeof_float),
         .clCreateBuffer (size_t_mul 3 sizeof_float),
         .clCreateBuffer (size_t_mul 3 sizeof_float)]) :=
  ⟨rfl, main_empty_source env_empty_source 3 rfl⟩

/-- C9, counterexample. On the sample machine with an empty kernel source, fourteen
device-API calls (enumeration, context, queue and buffer creation) are made before the
empty-source error is thrown. -/
theorem main_empty_source_after_acquisition :
    env_empty_source.kernel_sources = [] ∧
    main env_empty_source 3 [] =
      (.error ⟨"Empty source file! May be you forgot to configure working directory properly?"⟩,
       [.clGetPlatformIDs, .clGetPlatformIDs,
        .clGetDeviceIDs 1 .CL_DEVICE_TYPE_GPU,
        .clGetDeviceIDs 2 .CL_DEVICE_TYPE_GPU, .clGetDeviceIDs 2 .CL_DEVICE_TYPE_GPU,
        .clGetDeviceInfo 7, .clGetDeviceInfo 7, .clGetDeviceInfo 8, .clGetDeviceInfo 8,
        .clCreateContext (some 8), .clCreateCommandQueue (some 9) (some 8),
        .clCreateBuffer 12, .clCreateBuffer 12, .clCreateBuffer 12]) ∧
    (main env_empty_source 3 []).2 ≠ [] :=
  ⟨rfl, rfl, by decide⟩

end GPGPU
